import Mathlib

/-!
Shallow embedding of `src/binaries/llm-cli/src/cli_args.rs` (crate `llm-cli`
of the `llm` repository): the configuration-resolution layer of the CLI.
Pure logic is translated directly; external effects (filesystem reads, the
platform thread probe, the entropy source, the engine's progress-event
emission) are passed in as explicit parameters.
-/

namespace LlmCli

/-- `llm::TokenId` (an unsigned token id). -/
abbrev TokenId := Nat

/-- Modelled from the spec: `TokenBias` lives in the `llm` crate, which is not
under src/ (only its use in `cli_args.rs` is). Spec section 4.1: a table of
per-token bias adjustments, constructible directly from zero or more explicit
(id, bias) pairs. Bias values are `f32` in the source; they are only
constructed and carried here, never computed on, so they are embedded as
exact rationals. -/
structure TokenBias where
  pairs : List (TokenId × Rat)
deriving DecidableEq, Repr

/-- `TokenBias::new`: build a table from explicit pairs (spec section 4.1,
construction path (a)). -/
def TokenBias.new (v : List (TokenId × Rat)) : TokenBias := ⟨v⟩

/-- `TokenBias::default()`: the empty table. -/
def TokenBias.emptyDefault : TokenBias := ⟨[]⟩

/-- `llm::ModelKVMemoryType`. -/
inductive ModelKVMemoryType where
  | Float16
  | Float32
deriving DecidableEq, Repr

/-- `llm::InferenceSessionParameters` as constructed by the CLI. -/
structure InferenceSessionParameters where
  memory_k_type : ModelKVMemoryType
  memory_v_type : ModelKVMemoryType
  repetition_penalty_last_n : Nat
deriving DecidableEq, Repr

/-- `llm::InferenceParameters` as constructed by the CLI. -/
structure InferenceParameters where
  n_threads : Nat
  n_batch : Nat
  top_k : Nat
  top_p : Rat
  repeat_penalty : Rat
  temperature : Rat
  bias_tokens : TokenBias
deriving DecidableEq, Repr

/-- The `Generate` argument bundle (struct `Generate` in `cli_args.rs`).
Filesystem paths are plain strings. -/
structure Generate where
  num_threads : Option Nat
  num_predict : Option Nat
  batch_size : Nat
  repeat_last_n : Nat
  repeat_penalty : Rat
  temperature : Rat
  top_k : Nat
  top_p : Rat
  load_session : Option String
  seed : Option Nat
  float16 : Bool
  token_bias : Option TokenBias
  ignore_eos : Bool
deriving DecidableEq, Repr

/-- `Generate::autodetect_num_threads`. The platform probe is external I/O, so
its outcomes are parameters: `sysctlPerfCores` is the parsed output of
`sysctl -n hw.perflevel0.physicalcpu` on the macOS/aarch64 build (`none` when
the command or the parse fails, and always `none` on other platforms, where
that probe does not exist), and `physicalCores` is `num_cpus::get_physical()`.
Both builds reduce to: use the sysctl value when present, else the physical
core count. -/
def Generate.autodetect_num_threads (sysctlPerfCores : Option Nat)
    (physicalCores : Nat) : Nat :=
  sysctlPerfCores.getD physicalCores

/-- `Generate::num_threads()`: the explicit user-supplied count if any, else
the autodetected count. (Named `numThreads` because the Rust method shares its
name with the field.) -/
def Generate.numThreads (g : Generate) (sysctlPerfCores : Option Nat)
    (physicalCores : Nat) : Nat :=
  g.num_threads.getD (Generate.autodetect_num_threads sysctlPerfCores physicalCores)

/-- `Generate::inference_session_parameters`. -/
def Generate.inference_session_parameters (g : Generate) :
    InferenceSessionParameters :=
  let mem_typ := if g.float16 then ModelKVMemoryType.Float16
                 else ModelKVMemoryType.Float32
  { memory_k_type := mem_typ
    memory_v_type := mem_typ
    repetition_penalty_last_n := g.repeat_last_n }

/-- The state of `rand::rngs::StdRng` at construction. `seed_from_u64` is a
pure function of the seed, so a seeded state is embedded as the seed itself;
`from_entropy` draws from an OS entropy source, embedded as an explicit
entropy sample parameter. -/
inductive RngState where
  | seeded (seed : Nat)
  | fromEntropy (sample : Nat)
deriving DecidableEq, Repr

/-- `Generate::rng()`. -/
def Generate.rng (g : Generate) (entropySample : Nat) : RngState :=
  match g.seed with
  | some s => RngState.seeded s
  | none => RngState.fromEntropy entropySample

/-- `Generate::inference_parameters`. `eot` is the engine-supplied
end-of-text/EOS token id. -/
def Generate.inference_parameters (g : Generate) (eot : TokenId)
    (sysctlPerfCores : Option Nat) (physicalCores : Nat) : InferenceParameters :=
  { n_threads := g.numThreads sysctlPerfCores physicalCores
    n_batch := g.batch_size
    top_k := g.top_k
    top_p := g.top_p
    repeat_penalty := g.repeat_penalty
    temperature := g.temperature
    bias_tokens :=
      g.token_bias.getD
        (if g.ignore_eos then TokenBias.new [(eot, -1)]
         else TokenBias.emptyDefault) }

/-- The trailing-terminator stripping inside `PromptFile::contents`: pop the
last character if it is `\n`, then pop the (new) last character if it is `\r`.
The Rust code inspects the last byte of the UTF-8 buffer; since UTF-8
continuation bytes have the high bit set, the last byte is `\n`/`\r` exactly
when the last character is, so the character-level embedding is faithful. -/
def promptNormalize (s : List Char) : List Char :=
  let s1 := if s.getLast? = some '\n' then s.dropLast else s
  if s1.getLast? = some '\r' then s1.dropLast else s1

/-- The `PromptFile` argument bundle. -/
structure PromptFile where
  prompt_file : Option String
deriving DecidableEq, Repr

/-- Outcome of `PromptFile::contents`. `ok` is a normal return; `processExit`
records that the code called `std::process::exit` with the given status;
`ioError` is the error-return alternative the spec asks for, present so that
spec claims about it can be stated — the code never produces it. -/
inductive ContentsOutcome where
  | ok (contents : Option (List Char))
  | ioError
  | processExit (status : Nat)
deriving DecidableEq, Repr

/-- `PromptFile::contents`. The filesystem is a parameter: `fs path` is the
result of `std::fs::read_to_string(path)` (`none` = any read error). On read
failure the code logs the error and calls `std::process::exit(1)`. -/
def PromptFile.contents (pf : PromptFile) (fs : String → Option (List Char)) :
    ContentsOutcome :=
  match pf.prompt_file with
  | some path =>
    match fs path with
    | some prompt => ContentsOutcome.ok (some (promptNormalize prompt))
    | none => ContentsOutcome.processExit 1
  | none => ContentsOutcome.ok none

/-- What the filesystem holds at a session path, as observable by the session
loader: no file, an unreadable/undecodable file, or a valid session blob
(opaque bytes). -/
inductive FileState where
  | missing
  | corrupt
  | valid (blob : List Nat)
deriving DecidableEq, Repr

/-- Result of a persist-mode session load attempt. -/
inductive SessionLoadResult where
  | fresh
  | loaded (blob : List Nat)
  | ioError
deriving DecidableEq, Repr

/-- Modelled from the spec: the session load driver that consumes
`Infer::persist_session` is not under src/ (only the flag declaration and its
doc comment are). Spec section 4.5: in `PersistBoth` mode a missing file is
"no prior session" (fresh session, no error); any other I/O or format failure
on an existing file is fatal and reported as an IoError; a readable valid blob
is loaded. -/
def persistModeLoad (fs : String → FileState) (path : String) :
    SessionLoadResult :=
  match fs path with
  | FileState.missing => SessionLoadResult.fresh
  | FileState.corrupt => SessionLoadResult.ioError
  | FileState.valid b => SessionLoadResult.loaded b

/-- `llm::LoadProgress` (the progress event type consumed by
`load_progress_handler_log`). -/
inductive LoadProgress where
  | HyperparametersLoaded
  | ContextSize (bytes : Nat)
  | TensorLoaded (current_tensor tensor_count : Nat)
  | Loaded (byte_size tensor_count : Nat)
deriving DecidableEq, Repr

/-- Modelled from the spec: the event emission inside `llm::load` is in the
`llm` crate, not under src/ (`ModelLoad::load` only passes the handler in).
Spec section 4.6: a successful load reports exactly one HyperparametersLoaded,
then exactly one ContextSize, then one TensorLoaded per tensor with strictly
increasing index 0..total-1, then exactly one terminal Loaded carrying the
total byte size and the tensor count. -/
def loadEvents (tensor_count byte_size ctx_bytes : Nat) : List LoadProgress :=
  [LoadProgress.HyperparametersLoaded, LoadProgress.ContextSize ctx_bytes]
    ++ (List.range tensor_count).map
        (fun i => LoadProgress.TensorLoaded i tensor_count)
    ++ [LoadProgress.Loaded byte_size tensor_count]

/-- A log line produced by `load_progress_handler_log`, abstracted from its
formatting: constructor = which `log::...!` call fired, arguments = the values
interpolated into it. -/
inductive LogMessage where
  | debugHyperparameters
  | infoContextSize (bytes : Nat)
  | infoLoadedTensor (current_tensor tensor_count : Nat)
  | infoLoadComplete
  | infoModelSize (byte_size tensor_count : Nat)
deriving DecidableEq, Repr

/-- `load_progress_handler_log`: the log lines emitted for one progress event.
For `TensorLoaded` the code rebinds `current_tensor` to `current_tensor + 1`
and logs only when that 1-indexed number is divisible by 8. -/
def load_progress_handler_log : LoadProgress → List LogMessage
  | LoadProgress.HyperparametersLoaded => [LogMessage.debugHyperparameters]
  | LoadProgress.ContextSize bytes => [LogMessage.infoContextSize bytes]
  | LoadProgress.TensorLoaded current_tensor tensor_count =>
    let ct := current_tensor + 1
    if ct % 8 = 0 then [LogMessage.infoLoadedTensor ct tensor_count] else []
  | LoadProgress.Loaded byte_size tensor_count =>
    [LogMessage.infoLoadComplete, LogMessage.infoModelSize byte_size tensor_count]

/-- A `Generate` bundle holding exactly the clap defaults of `cli_args.rs`
(`batch_size 8`, `repeat_last_n 64`, `repeat_penalty 1.30`, `temperature 0.80`,
`top_k 40`, `top_p 0.95`, all optionals absent, both flags false). -/
def generateDefaults : Generate :=
  { num_threads := none
    num_predict := none
    batch_size := 8
    repeat_last_n := 64
    repeat_penalty := 13 / 10
    temperature := 4 / 5
    top_k := 40
    top_p := 19 / 20
    load_session := none
    seed := none
    float16 := false
    token_bias := none
    ignore_eos := false }

/-- C9: for every `Generate` input the produced `InferenceSessionParameters`
satisfy `memory_k_type = memory_v_type`: both are set from the single
`mem_typ` local, so key and value precision can never differ. -/
theorem C9_kv_types_equal (g : Generate) :
    g.inference_session_parameters.memory_k_type
      = g.inference_session_parameters.memory_v_type := rfl

/-- C7: `inference_session_parameters` selects both memory types from the
`float16` flag — `Float16` for both when the flag is set, `Float32` for both
when it is not — and carries `repeat_last_n` through unchanged as the
repetition-penalty window. -/
theorem C7_session_parameters (g : Generate) :
    (g.float16 = true →
      g.inference_session_parameters.memory_k_type = ModelKVMemoryType.Float16 ∧
      g.inference_session_parameters.memory_v_type = ModelKVMemoryType.Float16) ∧
    (g.float16 = false →
      g.inference_session_parameters.memory_k_type = ModelKVMemoryType.Float32 ∧
      g.inference_session_parameters.memory_v_type = ModelKVMemoryType.Float32) ∧
    g.inference_session_parameters.repetition_penalty_last_n = g.repeat_last_n := by
  refine ⟨fun h => ?_, fun h => ?_, rfl⟩ <;>
    simp [Generate.inference_session_parameters, h]

/-- C7 witness: the theorem applied at the default bundle with `float16` set. -/
theorem C7_session_parameters_witness :
    ({ generateDefaults with float16 := true } :
        Generate).inference_session_parameters.memory_k_type
      = ModelKVMemoryType.Float16 :=
  ((C7_session_parameters { generateDefaults with float16 := true }).1 rfl).1

/-- C1: `inference_parameters` resolves the bias table by exactly one of three
mutually exclusive policies: an explicitly supplied `token_bias` is used
verbatim and flipping `ignore_eos` to any value leaves the result unchanged;
with no explicit table and `ignore_eos` set, the table is the single entry
`(eot, -1.0)`; with neither, the table is empty. -/
theorem C1_bias_resolution (g : Generate) (eot : TokenId)
    (sp : Option Nat) (pc : Nat) :
    (∀ tb : TokenBias, ∀ b : Bool, g.token_bias = some tb →
      (({ g with ignore_eos := b } : Generate).inference_parameters
          eot sp pc).bias_tokens = tb) ∧
    (g.token_bias = none → g.ignore_eos = true →
      (g.inference_parameters eot sp pc).bias_tokens = TokenBias.new [(eot, -1)] ∧
      (g.inference_parameters eot sp pc).bias_tokens.pairs = [(eot, -1)]) ∧
    (g.token_bias = none → g.ignore_eos = false →
      (g.inference_parameters eot sp pc).bias_tokens.pairs = []) := by
  refine ⟨fun tb b h => ?_, fun h h' => ?_, fun h h' => ?_⟩
  · simp [Generate.inference_parameters, h]
  · simp [Generate.inference_parameters, h, h', TokenBias.new]
  · simp [Generate.inference_parameters, h, h', TokenBias.emptyDefault]

/-- A `Generate` bundle carrying an explicit bias table (token 5 biased by 2),
used to exercise the explicit-table branch of the bias resolution. -/
def generateWithBias : Generate :=
  { generateDefaults with token_bias := some (TokenBias.new [(5, 2)]) }

/-- C1 witness: the exact-policy theorem applied at a concrete bundle carrying
an explicit bias table, with EOS token id 3: the explicit table wins even with
`ignore_eos` set. -/
theorem C1_bias_resolution_witness :
    (({ generateWithBias with ignore_eos := true } :
        Generate).inference_parameters 3 none 4).bias_tokens
      = TokenBias.new [(5, 2)] :=
  (C1_bias_resolution generateWithBias 3 none 4).1 (TokenBias.new [(5, 2)])
    true rfl

/-- C5: two `rng()` invocations with the same supplied seed construct
identical `RngState`s whatever the rest of the configuration or the ambient
entropy, so derived output sequences coincide; with no seed the state is built
from the entropy sample, a non-reproducible source. -/
theorem C5_rng_determinism (g₁ g₂ : Generate) (s e₁ e₂ : Nat) :
    (g₁.seed = some s → g₂.seed = some s → g₁.rng e₁ = g₂.rng e₂) ∧
    (g₁.seed = none → g₁.rng e₁ = RngState.fromEntropy e₁) := by
  constructor
  · intro h₁ h₂
    simp [Generate.rng, h₁, h₂]
  · intro h₁
    simp [Generate.rng, h₁]

/-- C5 witness: the determinism theorem applied to two concrete bundles that
share seed 42 but see different entropy samples. -/
theorem C5_rng_determinism_witness :
    ({ generateDefaults with seed := some 42 } : Generate).rng 7
      = ({ generateDefaults with seed := some 42, float16 := true } :
          Generate).rng 9 :=
  (C5_rng_determinism { generateDefaults with seed := some 42 }
      { generateDefaults with seed := some 42, float16 := true }
      42 7 9).1 rfl rfl

/-- C6: in persist mode, loading from a path where no file exists yields a
fresh session and no error, while a corrupt existing file at the same path
yields an IoError and is never treated as a fresh session. -/
theorem C6_persist_load (fs : String → FileState) (path : String) :
    (fs path = FileState.missing →
      persistModeLoad fs path = SessionLoadResult.fresh ∧
      persistModeLoad fs path ≠ SessionLoadResult.ioError) ∧
    (fs path = FileState.corrupt →
      persistModeLoad fs path = SessionLoadResult.ioError ∧
      persistModeLoad fs path ≠ SessionLoadResult.fresh) := by
  constructor
  · intro h
    simp [persistModeLoad, h]
  · intro h
    simp [persistModeLoad, h]

/-- C6 witness: the theorem applied at a one-path filesystem with no file at
the session path. -/
theorem C6_persist_load_witness :
    persistModeLoad (fun _ => FileState.missing) "session.bin"
      = SessionLoadResult.fresh :=
  ((C6_persist_load (fun _ => FileState.missing) "session.bin").1 rfl).1

/-- C10: for a `TensorLoaded` event the handler emits a log line iff the
1-indexed tensor number `current_tensor + 1` is divisible by 8; when it does,
the line is exactly `Loaded tensor (current_tensor+1)/tensor_count`; all other
tensor events produce nothing, and the events that produce output always form
a sublist of the event stream. -/
theorem C10_tensor_log_every_8 (current_tensor tensor_count : Nat) :
    (load_progress_handler_log
        (LoadProgress.TensorLoaded current_tensor tensor_count) ≠ []
      ↔ (current_tensor + 1) % 8 = 0) ∧
    ((current_tensor + 1) % 8 = 0 →
      load_progress_handler_log
          (LoadProgress.TensorLoaded current_tensor tensor_count)
        = [LogMessage.infoLoadedTensor (current_tensor + 1) tensor_count]) ∧
    ((current_tensor + 1) % 8 ≠ 0 →
      load_progress_handler_log
          (LoadProgress.TensorLoaded current_tensor tensor_count) = []) ∧
    (∀ events : List LoadProgress,
      List.Sublist
        (events.filter (fun e => !(load_progress_handler_log e).isEmpty))
        events) := by
  refine ⟨?_, fun h => ?_, fun h => ?_, fun events => List.filter_sublist _⟩
  · by_cases h : (current_tensor + 1) % 8 = 0 <;>
      simp [load_progress_handler_log, h]
  · simp [load_progress_handler_log, h]
  · simp [load_progress_handler_log, h]

/-- C10 witness: the theorem applied at the eighth tensor (index 7) of 32:
the handler emits exactly the `Loaded tensor 8/32` line. -/
theorem C10_tensor_log_every_8_witness :
    load_progress_handler_log (LoadProgress.TensorLoaded 7 32)
      = [LogMessage.infoLoadedTensor 8 32] :=
  (C10_tensor_log_every_8 7 32).2.1 (by decide)

/-- C2 counterexample: `"hello\r"` does not end in `\n`, yet the normalization
changes it — the bare trailing `\r` is stripped even though it does not
precede a removed `\n` — refuting both "a `\r` is additionally removed only
when it immediately precedes the removed `\n`" and "content not ending in
`\n` is returned unchanged". -/
theorem C2_counterexample :
    ("hello\r".toList).getLast? ≠ some '\n' ∧
    promptNormalize ("hello\r".toList) ≠ "hello\r".toList ∧
    promptNormalize ("hello\r".toList) = "hello".toList := by decide

/-- C2 amended: the normalization strips one trailing `\n` if present, and
then strips one trailing `\r` if present — whether or not a `\n` was just
removed. At most one `\n` and one `\r` are removed, always from the end, and
content ending in neither is returned unchanged; so `"hello\r\n"` → `"hello"`
and `"hello\n\n"` → `"hello\n"` as claimed, but also `"hello\r"` → `"hello"`. -/
theorem C2_strip_amended (s : List Char) :
    (s.getLast? = some '\n' → s.dropLast.getLast? = some '\r' →
      promptNormalize s = s.dropLast.dropLast) ∧
    (s.getLast? = some '\n' → s.dropLast.getLast? ≠ some '\r' →
      promptNormalize s = s.dropLast) ∧
    (s.getLast? ≠ some '\n' → s.getLast? = some '\r' →
      promptNormalize s = s.dropLast) ∧
    (s.getLast? ≠ some '\n' → s.getLast? ≠ some '\r' →
      promptNormalize s = s) := by
  refine ⟨fun h h' => ?_, fun h h' => ?_, fun h h' => ?_, fun h h' => ?_⟩ <;>
    simp [promptNormalize, h, h']

/-- C2 witness: the amended characterization applied at `"hello\r\n"`, whose
last two characters are both stripped, yielding `"hello"`. -/
theorem C2_strip_amended_witness :
    promptNormalize ("hello\r\n".toList)
      = ("hello\r\n".toList).dropLast.dropLast ∧
    ("hello\r\n".toList).dropLast.dropLast = "hello".toList :=
  ⟨(C2_strip_amended ("hello\r\n".toList)).1 (by decide) (by decide), by decide⟩

/-- C3 counterexample: when the prompt-file read fails, `contents` does not
return a catchable error value — it terminates the process with exit status 1
(`std::process::exit(1)`), which is a different outcome from an IoError
return. -/
theorem C3_counterexample :
    PromptFile.contents ⟨some "prompt.txt"⟩ (fun _ => none)
      = ContentsOutcome.processExit 1 ∧
    ContentsOutcome.processExit 1 ≠ ContentsOutcome.ioError :=
  ⟨rfl, by decide⟩

/-- C3 amended: an unreadable prompt file is never silently treated as "no
prompt" — no `ok` value is returned — but the failure is not surfaced as a
catchable error value either: the code logs and terminates the process with
exit status 1. -/
theorem C3_exit_amended (fs : String → Option (List Char)) (path : String)
    (h : fs path = none) :
    PromptFile.contents ⟨some path⟩ fs = ContentsOutcome.processExit 1 ∧
    ∀ m, PromptFile.contents ⟨some path⟩ fs ≠ ContentsOutcome.ok m := by
  simp [PromptFile.contents, h]

/-- C3 witness: the amended theorem applied at a concrete filesystem in which
every read fails. -/
theorem C3_exit_amended_witness :
    PromptFile.contents ⟨some "missing.txt"⟩ (fun _ => none)
      ≠ ContentsOutcome.ok none :=
  (C3_exit_amended (fun _ => none) "missing.txt" rfl).2 none

/-- A `Generate` bundle with an explicit thread count of zero (`-t 0`), which
clap accepts since the field is an arbitrary `usize`. -/
def generateZeroThreads : Generate :=
  { generateDefaults with num_threads := some 0 }

/-- C4 counterexample: with an explicit `--num-threads 0` the resolver returns
0 — the explicit count is passed through with no lower-bound validation — so
`num_threads()` does not always return a positive count. -/
theorem C4_counterexample :
    generateZeroThreads.numThreads none 8 = 0 ∧
    ¬ 0 < generateZeroThreads.numThreads none 8 := by
  constructor
  · rfl
  · simp [generateZeroThreads, Generate.numThreads, generateDefaults]

/-- C4 amended: an explicit user-supplied count is returned unmodified with no
validation at all (upper or lower bound — including zero); with no explicit
count the autodetect result is returned, which is the sysctl performance-core
value when it parsed and the physical core count otherwise; the result is
positive in the autodetected case whenever the probe result is at least 1 (in
particular whenever the sysctl value is absent and the physical core count is
at least 1). -/
theorem C4_threads_amended (g : Generate) (sp : Option Nat) (pc : Nat) :
    (∀ n, g.num_threads = some n → g.numThreads sp pc = n) ∧
    (g.num_threads = none →
      g.numThreads sp pc = Generate.autodetect_num_threads sp pc) ∧
    (∀ v, sp = some v → Generate.autodetect_num_threads sp pc = v) ∧
    (sp = none → Generate.autodetect_num_threads sp pc = pc) ∧
    (g.num_threads = none → 1 ≤ Generate.autodetect_num_threads sp pc →
      0 < g.numThreads sp pc) := by
  refine ⟨fun n h => ?_, fun h => ?_, fun v h => ?_, fun h => ?_,
    fun h h' => ?_⟩
  · simp [Generate.numThreads, h]
  · simp [Generate.numThreads, h]
  · simp [Generate.autodetect_num_threads, h]
  · simp [Generate.autodetect_num_threads, h]
  · simp only [Generate.numThreads, h, Option.getD_none]
    omega

/-- C4 witness: the amended theorem applied at the default bundle (no explicit
count) with no sysctl value and 4 physical cores: the result is positive. -/
theorem C4_threads_amended_witness :
    0 < generateDefaults.numThreads none 4 :=
  (C4_threads_amended generateDefaults none 4).2.2.2.2 rfl (by decide)

/-- Does a progress event carry the `HyperparametersLoaded` tag? -/
def LoadProgress.isHyperparametersLoaded : LoadProgress → Bool
  | LoadProgress.HyperparametersLoaded => true
  | _ => false

/-- Does a progress event carry the `ContextSize` tag? -/
def LoadProgress.isContextSize : LoadProgress → Bool
  | LoadProgress.ContextSize _ => true
  | _ => false

/-- Does a progress event carry the terminal `Loaded` tag? -/
def LoadProgress.isLoadedTag : LoadProgress → Bool
  | LoadProgress.Loaded _ _ => true
  | _ => false

/-- The tensor index carried by a `TensorLoaded` event, if any. -/
def LoadProgress.tensorIndex? : LoadProgress → Option Nat
  | LoadProgress.TensorLoaded i _ => some i
  | _ => none

/-- C8: the load progress stream starts with the unique HyperparametersLoaded
event, followed immediately by the unique ContextSize event; the TensorLoaded
events carry exactly the indices 0..total-1 in strictly increasing order, each
with the common total; the stream ends with the unique terminal Loaded event
whose tensor_count equals that total; and for 3 tensors the stream is exactly
the six-event sequence of the claim. -/
theorem C8_load_event_order (n b c : Nat) :
    ((loadEvents n b c).filter LoadProgress.isHyperparametersLoaded)
      = [LoadProgress.HyperparametersLoaded] ∧
    (loadEvents n b c).head? = some LoadProgress.HyperparametersLoaded ∧
    ((loadEvents n b c).filter LoadProgress.isContextSize)
      = [LoadProgress.ContextSize c] ∧
    ((loadEvents n b c).drop 1).head? = some (LoadProgress.ContextSize c) ∧
    ((loadEvents n b c).filterMap LoadProgress.tensorIndex?) = List.range n ∧
    ((loadEvents n b c).filterMap LoadProgress.tensorIndex?).Sorted (· < ·) ∧
    (∀ i t, LoadProgress.TensorLoaded i t ∈ loadEvents n b c → t = n) ∧
    ((loadEvents n b c).filter LoadProgress.isLoadedTag)
      = [LoadProgress.Loaded b n] ∧
    (loadEvents n b c).getLast? = some (LoadProgress.Loaded b n) ∧
    loadEvents 3 b c
      = [LoadProgress.HyperparametersLoaded, LoadProgress.ContextSize c,
         LoadProgress.TensorLoaded 0 3, LoadProgress.TensorLoaded 1 3,
         LoadProgress.TensorLoaded 2 3, LoadProgress.Loaded b 3] := by
  have hfm : (loadEvents n b c).filterMap LoadProgress.tensorIndex?
      = List.range n := by
    simp only [loadEvents, List.filterMap_append, List.filterMap_map]
    show [] ++ (List.filterMap some (List.range n) ++ []) = List.range n
    simp [List.filterMap_some]
  refine ⟨?_, ?_, ?_, ?_, hfm, ?_, ?_, ?_, ?_, ?_⟩
  · simp [loadEvents, List.filter_append, LoadProgress.isHyperparametersLoaded,
      List.filter_map]
  · simp [loadEvents]
  · simp [loadEvents, List.filter_append, LoadProgress.isContextSize,
      List.filter_map]
  · simp [loadEvents]
  · rw [hfm]
    exact List.sorted_lt_range n
  · intro i t ht
    simp [loadEvents] at ht
    omega
  · simp [loadEvents, List.filter_append, LoadProgress.isLoadedTag,
      List.filter_map]
  · show (loadEvents n b c).getLast? = some (LoadProgress.Loaded b n)
    rw [loadEvents]
    exact List.getLast?_concat _
  · rfl

/-- C8 witness: the ordering theorem applied at a 3-tensor load of 5 bytes
with a 7-byte context: the stream is the exact six-event sequence, and the
middle tensor event's total is the tensor count. -/
theorem C8_load_event_order_witness :
    loadEvents 3 5 7
      = [LoadProgress.HyperparametersLoaded, LoadProgress.ContextSize 7,
         LoadProgress.TensorLoaded 0 3, LoadProgress.TensorLoaded 1 3,
         LoadProgress.TensorLoaded 2 3, LoadProgress.Loaded 5 3] ∧
    (3 : Nat) = 3 :=
  ⟨(C8_load_event_order 3 5 7).2.2.2.2.2.2.2.2.2,
   (C8_load_event_order 3 5 7).2.2.2.2.2.2.1 1 3 (by decide)⟩

end LlmCli
